import Mathlib

/-!
Shallow embedding of the CineSwap-Pro request/response adapter
(`src/services/geminiService.ts`) and the session orchestration
(`handleProcess` in the top-level App component), together with proofs of
the specified properties.

Conventions of the embedding:
* JavaScript optional fields become `Option` values; optional chaining
  (`a?.b`) becomes `Option.bind`.
* Image dimensions are natural numbers (they come from a decoded image);
  the JavaScript falsiness of `0` and `undefined` in `!width || !height`
  is rendered as `width.getD 0 = 0`.
* Real-valued arithmetic on aspect ratios is carried out in `ℚ`.
* A thrown `Error` is an `Except.error` carrying the message; an `Error`
  constructed without a message is represented by `Option.none` at the
  transport boundary.
-/

namespace CineSwap

/-- The `UploadedImage` record from `types.ts`: identifier, display URL,
binary content encoded as text, declared MIME type, original filename,
optional pixel width and height. -/
structure UploadedImage where
  id : String
  url : String
  base64 : String
  mimeType : String
  name : String
  width : Option Nat
  height : Option Nat
deriving DecidableEq

/-! ### Aspect-ratio selection (`getClosestAspectRatio`) -/

/-- Head of the `supported` candidate array in `getClosestAspectRatio`:
`{ name: "9:16", value: 9 / 16 }`. -/
def supportedHead : String × ℚ := ("9:16", 9 / 16)

/-- Tail of the `supported` candidate array: the remaining four candidates
in source order. -/
def supportedTail : List (String × ℚ) :=
  [("3:4", 3 / 4), ("1:1", 1), ("4:3", 4 / 3), ("16:9", 16 / 9)]

/-- The full `supported` candidate array of `getClosestAspectRatio`, in
source order: 9:16, 3:4, 1:1, 4:3, 16:9 with their numeric quotients. -/
def supportedRatios : List (String × ℚ) := supportedHead :: supportedTail

/-- The `supported.reduce((prev, curr) => Math.abs(curr.value - ratio) <
Math.abs(prev.value - ratio) ? curr : prev)` call: JavaScript `reduce`
without an initial value is a left fold over the tail seeded with the
head. -/
def reduceClosest (ratio : ℚ) (acc : String × ℚ) (l : List (String × ℚ)) :
    String × ℚ :=
  l.foldl (fun prev curr =>
    if |curr.2 - ratio| < |prev.2 - ratio| then curr else prev) acc

/-- `getClosestAspectRatio(width?, height?)` from `geminiService.ts`.
`if (!width || !height) return "3:4"` fires when either dimension is
absent or zero (both are falsy in JavaScript); otherwise the quotient
`width / height` is compared against the five candidates by the reduce
above and the winning candidate's name is returned. -/
def getClosestAspectRatio (width height : Option Nat) : String :=
  if width.getD 0 = 0 ∨ height.getD 0 = 0 then "3:4"
  else
    let ratio : ℚ := (width.getD 0 : ℚ) / (height.getD 0 : ℚ)
    (reduceClosest ratio supportedHead supportedTail).1

/-- The strict-less fold keeps the first minimum: its result splits the
seeded list as `l1 ++ result :: l2` where every candidate in `l1` is
strictly farther from `ratio`, and the result is globally no farther than
any candidate. -/
theorem reduceClosest_first_min (ratio : ℚ) :
    ∀ (l : List (String × ℚ)) (acc : String × ℚ),
    ∃ l1 l2,
      acc :: l = l1 ++ reduceClosest ratio acc l :: l2 ∧
      (∀ c ∈ l1, |(reduceClosest ratio acc l).2 - ratio| < |c.2 - ratio|) ∧
      (∀ c ∈ acc :: l, |(reduceClosest ratio acc l).2 - ratio| ≤ |c.2 - ratio|) := by
  intro l
  induction l with
  | nil =>
    intro acc
    exact ⟨[], [], rfl, by simp, by simp [reduceClosest]⟩
  | cons c t ih =>
    intro acc
    by_cases h : |c.2 - ratio| < |acc.2 - ratio|
    · have hred : reduceClosest ratio acc (c :: t) = reduceClosest ratio c t := by
        simp [reduceClosest, List.foldl_cons, h]
      obtain ⟨l1, l2, heq, hlt, hle⟩ := ih c
      rw [hred]
      refine ⟨acc :: l1, l2, ?_, ?_, ?_⟩
      · simpa using heq
      · intro x hx
        rcases List.mem_cons.mp hx with hx | hx
        · subst hx
          have hc : |(reduceClosest ratio c t).2 - ratio| ≤ |c.2 - ratio| :=
            hle c (List.mem_cons_self c t)
          exact lt_of_le_of_lt hc h
        · exact hlt x hx
      · intro x hx
        rcases List.mem_cons.mp hx with hx | hx
        · subst hx
          have hc : |(reduceClosest ratio c t).2 - ratio| ≤ |c.2 - ratio| :=
            hle c (List.mem_cons_self c t)
          exact le_of_lt (lt_of_le_of_lt hc h)
        · exact hle x hx
    · have hred : reduceClosest ratio acc (c :: t) = reduceClosest ratio acc t := by
        simp [reduceClosest, List.foldl_cons, h]
      have hac : |acc.2 - ratio| ≤ |c.2 - ratio| := not_lt.mp h
      obtain ⟨l1, l2, heq, hlt, hle⟩ := ih acc
      rw [hred]
      cases l1 with
      | nil =>
        have hres : reduceClosest ratio acc t = acc := by
          have := congrArg (fun l => l.head?) heq
          simp only at this
          simpa using this.symm
        have hl2 : l2 = t := by
          have := congrArg (fun l => l.tail) heq
          simp only at this
          simpa using this.symm
        refine ⟨[], c :: t, by simp [hres], by simp, ?_⟩
        intro x hx
        rcases List.mem_cons.mp hx with hx | hx
        · subst hx; simp [hres]
        · rcases List.mem_cons.mp hx with hx | hx
          · subst hx; simpa [hres] using hac
          · exact hle x (List.mem_cons_of_mem acc hx)
      | cons a l1t =>
        have ha : a = acc := by
          have := congrArg (fun l => l.head?) heq
          simpa using this.symm
        have ht : t = l1t ++ reduceClosest ratio acc t :: l2 := by
          have := congrArg (fun l => l.tail) heq
          simpa using this
        have hacc_lt : |(reduceClosest ratio acc t).2 - ratio| < |acc.2 - ratio| := by
          have := hlt a (List.mem_cons_self a l1t)
          rwa [ha] at this
        refine ⟨acc :: c :: l1t, l2, ?_, ?_, ?_⟩
        · simpa using ht
        · intro x hx
          rcases List.mem_cons.mp hx with hx | hx
          · subst hx; exact hacc_lt
          · rcases List.mem_cons.mp hx with hx | hx
            · subst hx; exact lt_of_lt_of_le hacc_lt hac
            · exact hlt x (List.mem_cons_of_mem a hx)
        · intro x hx
          rcases List.mem_cons.mp hx with hx | hx
          · rw [hx]; exact hle acc (List.mem_cons_self acc t)
          · rcases List.mem_cons.mp hx with hx | hx
            · subst hx; exact le_of_lt (lt_of_lt_of_le hacc_lt hac)
            · exact hle x (List.mem_cons_of_mem acc hx)

/-- C1 (amended): for present, nonzero width and positive height, the
aspect-ratio selector returns the name of one of the five fixed
candidates, namely the one whose quotient minimizes the absolute
difference to width/height, and every candidate listed before it is
strictly farther (first-encountered-minimum tie-breaking: a later
candidate replaces the current best only when strictly closer). -/
theorem getClosestAspectRatio_first_min (w h : Nat) (hw : 0 < w) (hh : 0 < h) :
    ∃ l1 c l2,
      supportedRatios = l1 ++ c :: l2 ∧
      getClosestAspectRatio (some w) (some h) = c.1 ∧
      (∀ c' ∈ supportedRatios, |c.2 - (w : ℚ) / (h : ℚ)| ≤ |c'.2 - (w : ℚ) / (h : ℚ)|) ∧
      (∀ c' ∈ l1, |c.2 - (w : ℚ) / (h : ℚ)| < |c'.2 - (w : ℚ) / (h : ℚ)|) := by
  obtain ⟨l1, l2, heq, hlt, hle⟩ :=
    reduceClosest_first_min ((w : ℚ) / (h : ℚ)) supportedTail supportedHead
  refine ⟨l1, reduceClosest ((w : ℚ) / (h : ℚ)) supportedHead supportedTail, l2,
    heq, ?_, ?_, hlt⟩
  · simp [getClosestAspectRatio, hw.ne', hh.ne']
  · intro c' hc'
    exact hle c' hc'

/-- C1 counterexample: at width 0 (present) and height 1 > 0, the code
returns the falsiness default "3:4", yet candidate 9:16 is strictly
closer to the quotient 0/1 than 3:4 is, so the returned candidate does
not minimize the absolute difference as the claim requires. -/
theorem getClosestAspectRatio_zero_width_counterexample :
    getClosestAspectRatio (some 0) (some 1) = "3:4" ∧
    |((9 : ℚ) / 16) - ((0 : ℚ) / 1)| < |((3 : ℚ) / 4) - ((0 : ℚ) / 1)| := by
  constructor
  · rfl
  · rw [abs_of_nonneg (by norm_num), abs_of_nonneg (by norm_num)]
    norm_num

/-- Witness for C1 at the spec's scenario A dimensions 1000 × 1500. -/
theorem getClosestAspectRatio_first_min_witness :
    0 < 1000 ∧ 0 < 1500 ∧
    (∃ l1 c l2,
      supportedRatios = l1 ++ c :: l2 ∧
      getClosestAspectRatio (some 1000) (some 1500) = c.1 ∧
      (∀ c' ∈ supportedRatios,
        |c.2 - ((1000 : Nat) : ℚ) / ((1500 : Nat) : ℚ)| ≤
          |c'.2 - ((1000 : Nat) : ℚ) / ((1500 : Nat) : ℚ)|) ∧
      (∀ c' ∈ l1,
        |c.2 - ((1000 : Nat) : ℚ) / ((1500 : Nat) : ℚ)| <
          |c'.2 - ((1000 : Nat) : ℚ) / ((1500 : Nat) : ℚ)|)) :=
  ⟨by decide, by decide,
    getClosestAspectRatio_first_min 1000 1500 (by decide) (by decide)⟩

/-- C9: whenever the width or the height is absent, the selector returns
the fixed default "3:4". -/
theorem getClosestAspectRatio_default (width height : Option Nat)
    (h : width = none ∨ height = none) :
    getClosestAspectRatio width height = "3:4" := by
  rcases h with h | h <;> subst h <;> simp [getClosestAspectRatio]

/-- Witness for C9: absent width, height 5. -/
theorem getClosestAspectRatio_default_witness :
    ((none : Option Nat) = none ∨ (some 5 : Option Nat) = none) ∧
    getClosestAspectRatio none (some 5) = "3:4" :=
  ⟨Or.inl rfl, getClosestAspectRatio_default none (some 5) (Or.inl rfl)⟩

/-! ### Model response shape and resolution (`generateSwappedPoster`) -/

/-- One content part of a model response. `inlineData = some d` renders a
part whose `inlineData` object is present and carries base64 data `d`;
`text = some s` renders a present `text` field with content `s`. -/
structure RespPart where
  inlineData : Option String
  text : Option String
deriving DecidableEq

/-- The `content` object of a candidate: an optional array of parts. -/
structure Content where
  parts : Option (List RespPart)
deriving DecidableEq

/-- One candidate of a model response, with its optional content and
optional finish reason. -/
structure Candidate where
  content : Option Content
  finishReason : Option String
deriving DecidableEq

/-- A model response: an optional array of candidates. -/
structure GenResponse where
  candidates : Option (List Candidate)
deriving DecidableEq

/-- Error message thrown when the candidate is missing or has no parts
array and `finishReason === 'SAFETY'`. -/
def safetyMsg : String :=
  "由於安全性原則（可能包含受保護的人物或敏感內容），AI 拒絕生成此圖片。請嘗試更換海報或照片內容再試一次。"

/-- Error message thrown when the candidate is missing or has no parts
array and the finish reason is not the safety block. -/
def emptyMsg : String := "AI 無法生成圖片，請檢查圖片內容是否清晰或符合規範。"

/-- Error message thrown when the parts array holds neither a binary nor
a (truthy) text part. -/
def failedMsg : String := "未能成功獲取置換後的影像。"

/-- Fallback thrown by the catch clause when the caught error carries no
(truthy) message. -/
def fallbackMsg : String := "生成過程中發生未知錯誤。"

/-- The substring the catch clause looks for in caught error messages. -/
def keySignature : String := "Requested entity was not found"

/-- Fixed data-reference prefix put before the returned base64 payload. -/
def pngPrefix : String := "data:image/png;base64,"

/-- The `for (const part of parts) if (part.inlineData) return ...` loop:
data of the first part whose `inlineData` is present, if any. -/
def firstInline : List RespPart → Option String
  | [] => none
  | p :: rest =>
    match p.inlineData with
    | some d => some d
    | none => firstInline rest

/-- JavaScript truthiness of `p.text`: the field is present and the
string is nonempty. -/
def truthyText (p : RespPart) : Bool :=
  !(p.text.getD "").isEmpty

/-- The response-resolution steps of `generateSwappedPoster` (source
lines 96–119): take the first candidate; if it or its parts array is
absent, throw the safety or the generic empty message according to the
finish reason; otherwise return the first inline payload behind the PNG
data prefix; otherwise throw the first truthy text behind the
`AI 回應：` prefix; otherwise throw the generic failure message. -/
def resolveResponse (response : GenResponse) : Except String String :=
  let candidate := (response.candidates.getD []).head?
  match candidate.bind (fun c => c.content.bind Content.parts) with
  | none =>
    if candidate.bind Candidate.finishReason = some "SAFETY" then
      Except.error safetyMsg
    else
      Except.error emptyMsg
  | some parts =>
    match firstInline parts with
    | some d => Except.ok (pngPrefix ++ d)
    | none =>
      match parts.find? truthyText with
      | some p => Except.error ("AI 回應：" ++ p.text.getD "")
      | none => Except.error failedMsg

/-- `pat` matches at the head of `s` (character-list version of
JavaScript `String.prototype.startsWith`). -/
def matchesAt : List Char → List Char → Bool
  | [], _ => true
  | _ :: _, [] => false
  | p :: ps, s :: ss => p == s && matchesAt ps ss

/-- `pat` occurs somewhere in `s` (character-list version of JavaScript
`String.prototype.includes`). -/
def hasSubL (pat : List Char) : List Char → Bool
  | [] => matchesAt pat []
  | s :: ss => matchesAt pat (s :: ss) || hasSubL pat ss

/-- JavaScript `s.includes(pat)`. -/
def strIncludes (s pat : String) : Bool := hasSubL pat.data s.data

/-- The catch clause of `generateSwappedPoster` (source lines 120–126):
a caught error whose message contains `keySignature` is rethrown as
`KEY_NOT_FOUND`; otherwise `error.message || fallback` rethrows the
original message, falling back when the message is absent or empty. -/
def translateError (m : Option String) : String :=
  if strIncludes (m.getD "") keySignature then "KEY_NOT_FOUND"
  else
    match m with
    | some s => if s.isEmpty then fallbackMsg else s
    | none => fallbackMsg

/-- Outcome of the remote `generateContent` call inside the try block:
either a parsed response, or a thrown transport/SDK error carrying an
optional message. -/
inductive TransportOutcome where
  | ok (response : GenResponse)
  | err (message : Option String)
deriving DecidableEq

/-- The try block body after the remote call: a transport error is
rethrown as caught (message optional); a response goes through
`resolveResponse`, whose throws always carry a message. -/
def tryBody (outcome : TransportOutcome) : Except (Option String) String :=
  match outcome with
  | .err m => Except.error m
  | .ok r =>
    match resolveResponse r with
    | .ok v => Except.ok v
    | .error msg => Except.error (some msg)

/-- `generateSwappedPoster` as a function of the remote call's outcome:
the try block composed with the catch clause's error translation. -/
def generateSwappedPoster (outcome : TransportOutcome) : Except String String :=
  match tryBody outcome with
  | .ok v => Except.ok v
  | .error m => Except.error (translateError m)

/-! ### Request payload assembly -/

/-- One part of the outbound request payload: either an inline image
(base64 data plus MIME type) or a text block. -/
inductive ReqPart where
  | inlineData (data : String) (mimeType : String)
  | text (s : String)
deriving DecidableEq

/-- The constant instruction template of `generateSwappedPoster` (the
`prompt` template literal, after `.trim()`). It takes no parameters. -/
def promptText : String :=
  "TASK: HIGH-END CINEMATIC CHARACTER COMPOSITE AND CREATIVE IMAGE EDITING.\n" ++
  "    \n" ++
  "    CONTEXT:\n" ++
  "    This is a creative personal project. I am providing a Master Poster (Image 1) and a series of Source Character Portraits (Image 2 onwards). \n" ++
  "    The goal is to professionally integrate the Source Character Portraits into the Master Poster, replacing the main characters shown.\n" ++
  "    \n" ++
  "    SPECIFIC INSTRUCTIONS:\n" ++
  "    1. SEQUENTIAL MAPPING: \n" ++
  "       - Replace the characters in the poster in the EXACT sequence the Source Portraits are provided.\n" ++
  "       - Source 1 replaces the first character (usually the most prominent or leftmost).\n" ++
  "       - Source 2 replaces the second character, and so on.\n" ++
  "    \n" ++
  "    2. PERSPECTIVE & ANATOMY:\n" ++
  "       - Match the exact 3D orientation, head tilt, and eye gaze of the original character in the poster. \n" ++
  "       - The composite must feel anatomically correct and consistent with the poster\x27s original perspective.\n" ++
  "    \n" ++
  "    3. CINEMATIC LIGHTING & TEXTURE:\n" ++
  "       - Replicate the complex lighting of the scene on the new characters (rim lights, key lights, shadows).\n" ++
  "       - Match the original color temperature, skin tone grading, and photographic film grain of the original poster perfectly.\n" ++
  "    \n" ++
  "    4. PRESERVATION:\n" ++
  "       - DO NOT modify the background, props, costumes (unless needed for seamless integration), or any graphic design elements like titles, logos, and billing blocks.\n" ++
  "    \n" ++
  "    FINAL RESULT:\n" ++
  "    A seamless, high-resolution cinematic poster where the new characters look like they were photographed on-set for this specific production."

/-- The `parts` array assembled by `generateSwappedPoster` (source lines
68–82): the poster's inline data, then each person's inline data in list
order, then the constant prompt text. -/
def buildParts (poster : UploadedImage) (people : List UploadedImage) :
    List ReqPart :=
  ReqPart.inlineData poster.base64 poster.mimeType ::
    (people.map fun person => ReqPart.inlineData person.base64 person.mimeType)
    ++ [ReqPart.text promptText]

/-! ### Session orchestration (`handleProcess` in the App component) -/

/-- The `AppState` record of the App component. `result` and `error` are
the optional result data URL and error message. -/
structure AppState where
  poster : Option UploadedImage
  people : List UploadedImage
  isProcessing : Bool
  result : Option String
  error : Option String
deriving DecidableEq

/-- The App component's full local state: the `AppState` record plus the
separately held `hasKey` flag. -/
structure UIState where
  state : AppState
  hasKey : Bool
deriving DecidableEq

/-- Precondition message: no API key selected. -/
def keyRequiredMsg : String := "使用 Pro 模式需要先選取您的 API Key。"

/-- Precondition message: no poster uploaded. -/
def posterRequiredMsg : String := "請上傳一張電影海報。"

/-- Precondition message: no person image uploaded. -/
def personRequiredMsg : String := "請上傳至少一位置換人物。"

/-- Error message shown when the adapter rejects with `KEY_NOT_FOUND`. -/
def keyInvalidMsg : String := "API Key 無效或已過期，請重新選取。"

/-- `handleProcess` from the App component, as a function of the current
UI state and of the adapter result the awaited `generateSwappedPoster`
call would produce. Returns the new UI state and whether the remote call
was issued. When a precondition fails, only the error message is set and
no call is made; otherwise the processing flag is raised, the call's
outcome is recorded, and a `KEY_NOT_FOUND` rejection additionally resets
`hasKey`. -/
def handleProcess (ui : UIState) (genResult : Except String String) :
    UIState × Bool :=
  if ui.hasKey = false then
    ({ ui with state := { ui.state with error := some keyRequiredMsg } }, false)
  else if ui.state.poster = none then
    ({ ui with state := { ui.state with error := some posterRequiredMsg } }, false)
  else if ui.state.people.length = 0 then
    ({ ui with state := { ui.state with error := some personRequiredMsg } }, false)
  else
    let s1 : AppState :=
      { ui.state with isProcessing := true, error := none, result := none }
    match genResult with
    | .ok url =>
      ({ ui with state := { s1 with result := some url, isProcessing := false } },
        true)
    | .error msg =>
      if msg = "KEY_NOT_FOUND" then
        ({ state := { s1 with isProcessing := false, error := some keyInvalidMsg },
           hasKey := false }, true)
      else
        ({ ui with state := { s1 with error := some msg, isProcessing := false } },
          true)

/-! ### Resolver lemmas -/

/-- If no part carries inline data, the image-scanning loop finds none. -/
theorem firstInline_eq_none (parts : List RespPart)
    (h : ∀ q ∈ parts, q.inlineData = none) : firstInline parts = none := by
  induction parts with
  | nil => rfl
  | cons p t ih =>
    have hp := h p (List.mem_cons_self p t)
    simp only [firstInline, hp]
    exact ih fun q hq => h q (List.mem_cons_of_mem p hq)

/-- The image-scanning loop returns the data of the first part whose
inline data is present. -/
theorem firstInline_first (l1 : List RespPart) (p : RespPart)
    (l2 : List RespPart) (d : String)
    (hl1 : ∀ q ∈ l1, q.inlineData = none) (hd : p.inlineData = some d) :
    firstInline (l1 ++ p :: l2) = some d := by
  induction l1 with
  | nil => simp [firstInline, hd]
  | cons q t ih =>
    have hq := hl1 q (List.mem_cons_self q t)
    simp only [List.cons_append, firstInline, hq]
    exact ih fun x hx => hl1 x (List.mem_cons_of_mem q hx)

/-- `find?` over a split list whose left half is all falsy returns the
first truthy element. -/
theorem find?_truthy_first (l1 : List RespPart) (p : RespPart)
    (l2 : List RespPart)
    (hl1 : ∀ q ∈ l1, truthyText q = false) (hp : truthyText p = true) :
    (l1 ++ p :: l2).find? truthyText = some p := by
  induction l1 with
  | nil => simpa using List.find?_cons_of_pos l2 hp
  | cons q t ih =>
    have hq := hl1 q (List.mem_cons_self q t)
    rw [List.cons_append, List.find?_cons_of_neg _ (by simp [hq])]
    exact ih fun x hx => hl1 x (List.mem_cons_of_mem q hx)

/-- Shared resolver fact: with parts present, none carrying inline data,
and a first truthy text part `p` with content `t`, the resolver throws
the prefixed text message. -/
theorem resolve_text_aux (r : GenResponse) (c : Candidate)
    (parts l1 l2 : List RespPart) (p : RespPart) (t : String)
    (hc : (r.candidates.getD []).head? = some c)
    (hparts : c.content.bind Content.parts = some parts)
    (hnb : ∀ q ∈ parts, q.inlineData = none)
    (hsplit : parts = l1 ++ p :: l2)
    (hl1 : ∀ q ∈ l1, truthyText q = false)
    (ht : p.text = some t) (hne : t ≠ "") :
    resolveResponse r = Except.error ("AI 回應：" ++ t) := by
  have hfi : firstInline parts = none := firstInline_eq_none parts hnb
  have hie : t.isEmpty = false :=
    Bool.eq_false_iff.mpr fun hT => hne ((String.isEmpty_iff t).mp hT)
  have hpt : truthyText p = true := by
    simp [truthyText, ht, hie]
  have hfind : parts.find? truthyText = some p := by
    rw [hsplit]; exact find?_truthy_first l1 p l2 hl1 hpt
  simp [resolveResponse, hc, hparts, hfi, hfind, ht]

/-- C2: when the first candidate has content parts and part `p` is the
first one carrying an inline binary payload (every earlier part carries
none), the resolver succeeds with exactly that payload behind the fixed
PNG data prefix, whatever follows `p`. -/
theorem resolve_first_inline (r : GenResponse) (c : Candidate)
    (parts l1 l2 : List RespPart) (p : RespPart) (d : String)
    (hc : (r.candidates.getD []).head? = some c)
    (hparts : c.content.bind Content.parts = some parts)
    (hsplit : parts = l1 ++ p :: l2)
    (hl1 : ∀ q ∈ l1, q.inlineData = none)
    (hd : p.inlineData = some d) :
    resolveResponse r = Except.ok (pngPrefix ++ d) := by
  have hfi : firstInline parts = some d := by
    rw [hsplit]; exact firstInline_first l1 p l2 d hl1 hd
  simp [resolveResponse, hc, hparts, hfi]

/-- Sample response for the C2 witness: a text part, then the binary
payload "XYZ", then a further binary part that must be ignored. -/
def inlineCand : Candidate :=
  ⟨some ⟨some [⟨none, some "skip"⟩, ⟨some "XYZ", none⟩, ⟨some "ABC", none⟩]⟩, none⟩

/-- Sample response wrapping `inlineCand`. -/
def inlineResp : GenResponse := ⟨some [inlineCand]⟩

/-- Witness for C2 on `inlineResp`: the first binary part "XYZ" wins and
the later binary part "ABC" is ignored. -/
theorem resolve_first_inline_witness :
    (inlineResp.candidates.getD []).head? = some inlineCand ∧
    inlineCand.content.bind Content.parts =
      some [⟨none, some "skip"⟩, ⟨some "XYZ", none⟩, ⟨some "ABC", none⟩] ∧
    ([⟨none, some "skip"⟩, ⟨some "XYZ", none⟩, ⟨some "ABC", none⟩] :
        List RespPart) =
      [⟨none, some "skip"⟩] ++ ⟨some "XYZ", none⟩ :: [⟨some "ABC", none⟩] ∧
    (∀ q ∈ ([⟨none, some "skip"⟩] : List RespPart), q.inlineData = none) ∧
    (RespPart.mk (some "XYZ") none).inlineData = some "XYZ" ∧
    resolveResponse inlineResp = Except.ok (pngPrefix ++ "XYZ") :=
  ⟨rfl, rfl, rfl, by decide, rfl,
    resolve_first_inline inlineResp inlineCand _ [⟨none, some "skip"⟩]
      [⟨some "ABC", none⟩] ⟨some "XYZ", none⟩ "XYZ" rfl rfl rfl
      (by decide) rfl⟩

/-- C3: when the response has no first candidate, or the candidate's
content-parts array is absent, the resolver fails — with the safety
message exactly when the candidate's finish reason is 'SAFETY', and with
the generic empty message otherwise, including when there is no
candidate at all (hence no finish reason). -/
theorem resolve_empty_cases :
    (∀ r : GenResponse, (r.candidates.getD []).head? = none →
      resolveResponse r = Except.error emptyMsg) ∧
    (∀ (r : GenResponse) (c : Candidate),
      (r.candidates.getD []).head? = some c →
      c.content.bind Content.parts = none →
      c.finishReason = some "SAFETY" →
      resolveResponse r = Except.error safetyMsg) ∧
    (∀ (r : GenResponse) (c : Candidate),
      (r.candidates.getD []).head? = some c →
      c.content.bind Content.parts = none →
      c.finishReason ≠ some "SAFETY" →
      resolveResponse r = Except.error emptyMsg) := by
  refine ⟨?_, ?_, ?_⟩
  · intro r h
    simp [resolveResponse, h]
  · intro r c hc hparts hsafety
    simp [resolveResponse, hc, hparts, hsafety]
  · intro r c hc hparts hsafety
    simp [resolveResponse, hc, hparts, hsafety]

/-- Safety-blocked sample candidate for the C3 witness: no content, the
finish reason is 'SAFETY'. -/
def safetyCand : Candidate := ⟨none, some "SAFETY"⟩

/-- Sample response wrapping `safetyCand`. -/
def safetyResp : GenResponse := ⟨some [safetyCand]⟩

/-- Witness for C3 on `safetyResp`: an empty candidate flagged 'SAFETY'
produces the safety message. -/
theorem resolve_empty_cases_witness :
    (safetyResp.candidates.getD []).head? = some safetyCand ∧
    safetyCand.content.bind Content.parts = none ∧
    safetyCand.finishReason = some "SAFETY" ∧
    resolveResponse safetyResp = Except.error safetyMsg :=
  ⟨rfl, rfl, rfl, resolve_empty_cases.2.1 safetyResp safetyCand rfl rfl rfl⟩

/-- Sample response for the C4 counterexample: a sole text part "hello". -/
def textFeedbackResp : GenResponse :=
  ⟨some [⟨some ⟨some [⟨none, some "hello"⟩]⟩, none⟩]⟩

/-- Degenerate sample for the C4 counterexample: a sole text part whose
content is the empty string (falsy in JavaScript). -/
def emptyTextResp : GenResponse :=
  ⟨some [⟨some ⟨some [⟨none, some ""⟩]⟩, none⟩]⟩

/-- C4 counterexample: the resolver does not surface the text verbatim —
it prepends the fixed prefix `AI 回應：` — and a part carrying an empty
text payload is skipped entirely (the generic failure message results),
refuting the claim's no-alteration wording. -/
theorem resolve_text_verbatim_counterexample :
    resolveResponse textFeedbackResp = Except.error ("AI 回應：" ++ "hello") ∧
    ("AI 回應：" ++ "hello" : String) ≠ "hello" ∧
    resolveResponse emptyTextResp = Except.error failedMsg := by
  refine ⟨rfl, by decide, rfl⟩

/-- C4 (amended): when the first candidate has content parts, none
carrying an inline binary payload, and at least one carrying a nonempty
text payload, the resolver fails with the first such part's exact
content behind the fixed prefix `AI 回應：`. -/
theorem resolve_text_feedback (r : GenResponse) (c : Candidate)
    (parts l1 l2 : List RespPart) (p : RespPart) (t : String)
    (hc : (r.candidates.getD []).head? = some c)
    (hparts : c.content.bind Content.parts = some parts)
    (hnb : ∀ q ∈ parts, q.inlineData = none)
    (hsplit : parts = l1 ++ p :: l2)
    (hl1 : ∀ q ∈ l1, truthyText q = false)
    (ht : p.text = some t) (hne : t ≠ "") :
    resolveResponse r = Except.error ("AI 回應：" ++ t) :=
  resolve_text_aux r c parts l1 l2 p t hc hparts hnb hsplit hl1 ht hne

/-- Sample candidate for the C4 witness: an empty-text part followed by
the feedback text "cannot comply". -/
def feedbackCand : Candidate :=
  ⟨some ⟨some [⟨none, some ""⟩, ⟨none, some "cannot comply"⟩]⟩, none⟩

/-- Sample response wrapping `feedbackCand`. -/
def feedbackResp : GenResponse := ⟨some [feedbackCand]⟩

/-- Witness for the amended C4 on `feedbackResp`. -/
theorem resolve_text_feedback_witness :
    (feedbackResp.candidates.getD []).head? = some feedbackCand ∧
    feedbackCand.content.bind Content.parts =
      some [⟨none, some ""⟩, ⟨none, some "cannot comply"⟩] ∧
    (∀ q ∈ ([⟨none, some ""⟩, ⟨none, some "cannot comply"⟩] : List RespPart),
      q.inlineData = none) ∧
    ([⟨none, some ""⟩, ⟨none, some "cannot comply"⟩] : List RespPart) =
      [⟨none, some ""⟩] ++ ⟨none, some "cannot comply"⟩ :: [] ∧
    (∀ q ∈ ([⟨none, some ""⟩] : List RespPart), truthyText q = false) ∧
    (RespPart.mk none (some "cannot comply")).text = some "cannot comply" ∧
    ("cannot comply" : String) ≠ "" ∧
    resolveResponse feedbackResp = Except.error ("AI 回應：" ++ "cannot comply") :=
  ⟨rfl, rfl, by decide, rfl, by decide, rfl, by decide,
    resolve_text_feedback feedbackResp feedbackCand _ [⟨none, some ""⟩] []
      ⟨none, some "cannot comply"⟩ "cannot comply" rfl rfl (by decide) rfl
      (by decide) rfl (by decide)⟩

/-! ### Failure translation (the catch clause) -/

/-- A substring occurrence survives prepending characters. -/
theorem hasSubL_append_left (pat pre t : List Char)
    (h : hasSubL pat t = true) : hasSubL pat (pre ++ t) = true := by
  induction pre with
  | nil => simpa using h
  | cons x xs ih =>
    rw [List.cons_append]
    have hstep : hasSubL pat (x :: (xs ++ t)) =
        (matchesAt pat (x :: (xs ++ t)) || hasSubL pat (xs ++ t)) := rfl
    rw [hstep, Bool.or_eq_true]
    exact Or.inr ih

/-- A substring occurrence survives prepending a string. -/
theorem strIncludes_append_left (pre t pat : String)
    (h : strIncludes t pat = true) : strIncludes (pre ++ t) pat = true := by
  unfold strIncludes at h ⊢
  rw [String.data_append]
  exact hasSubL_append_left pat.data pre.data t.data h

/-- C5: a transport error whose message contains the entity-not-found
signature is always rethrown as `KEY_NOT_FOUND`; any other transport
error propagates its own message, except that an absent or empty message
is replaced by the fixed fallback. -/
theorem generateSwappedPoster_transport_error :
    (∀ s : String, strIncludes s keySignature = true →
      generateSwappedPoster (.err (some s)) = Except.error "KEY_NOT_FOUND") ∧
    (∀ s : String, strIncludes s keySignature = false → s ≠ "" →
      generateSwappedPoster (.err (some s)) = Except.error s) ∧
    generateSwappedPoster (.err none) = Except.error fallbackMsg ∧
    generateSwappedPoster (.err (some "")) = Except.error fallbackMsg := by
  refine ⟨?_, ?_, ?_, ?_⟩
  · intro s h
    simp [generateSwappedPoster, tryBody, translateError, h]
  · intro s h hne
    have hie : s.isEmpty = false :=
      Bool.eq_false_iff.mpr fun hT => hne ((String.isEmpty_iff s).mp hT)
    simp [generateSwappedPoster, tryBody, translateError, h, hie]
  · rfl
  · rfl

/-- Witness for C5 on the message
"boom: Requested entity was not found (404)". -/
theorem generateSwappedPoster_transport_error_witness :
    strIncludes "boom: Requested entity was not found (404)" keySignature
      = true ∧
    generateSwappedPoster (.err (some "boom: Requested entity was not found (404)"))
      = Except.error "KEY_NOT_FOUND" :=
  ⟨by decide,
    generateSwappedPoster_transport_error.1
      "boom: Requested entity was not found (404)" (by decide)⟩

/-- C10: because the catch clause inspects every thrown message, a model
response with no inline binary part whose first (nonempty) text part
contains the entity-not-found signature is rethrown as `KEY_NOT_FOUND`
rather than surfaced as text feedback. -/
theorem generateSwappedPoster_text_reclassified (r : GenResponse)
    (c : Candidate) (parts l1 l2 : List RespPart) (p : RespPart) (t : String)
    (hc : (r.candidates.getD []).head? = some c)
    (hparts : c.content.bind Content.parts = some parts)
    (hnb : ∀ q ∈ parts, q.inlineData = none)
    (hsplit : parts = l1 ++ p :: l2)
    (hl1 : ∀ q ∈ l1, truthyText q = false)
    (ht : p.text = some t) (hne : t ≠ "")
    (hsig : strIncludes t keySignature = true) :
    generateSwappedPoster (.ok r) = Except.error "KEY_NOT_FOUND" := by
  have hres : resolveResponse r = Except.error ("AI 回應：" ++ t) :=
    resolve_text_aux r c parts l1 l2 p t hc hparts hnb hsplit hl1 ht hne
  have hinc : strIncludes ("AI 回應：" ++ t) keySignature = true :=
    strIncludes_append_left "AI 回應：" t keySignature hsig
  simp [generateSwappedPoster, tryBody, hres, translateError, hinc]

/-- Sample candidate for the C10 witness: its sole part carries the
entity-not-found signature as text. -/
def reclassCand : Candidate :=
  ⟨some ⟨some [⟨none, some "Requested entity was not found."⟩]⟩, none⟩

/-- Sample response wrapping `reclassCand`. -/
def reclassResp : GenResponse := ⟨some [reclassCand]⟩

/-- Witness for C10 on `reclassResp`. -/
theorem generateSwappedPoster_text_reclassified_witness :
    (reclassResp.candidates.getD []).head? = some reclassCand ∧
    reclassCand.content.bind Content.parts =
      some [⟨none, some "Requested entity was not found."⟩] ∧
    (∀ q ∈ ([⟨none, some "Requested entity was not found."⟩] : List RespPart),
      q.inlineData = none) ∧
    ([⟨none, some "Requested entity was not found."⟩] : List RespPart) =
      [] ++ ⟨none, some "Requested entity was not found."⟩ :: [] ∧
    (∀ q ∈ ([] : List RespPart), truthyText q = false) ∧
    (RespPart.mk none (some "Requested entity was not found.")).text =
      some "Requested entity was not found." ∧
    ("Requested entity was not found." : String) ≠ "" ∧
    strIncludes "Requested entity was not found." keySignature = true ∧
    generateSwappedPoster (.ok reclassResp) = Except.error "KEY_NOT_FOUND" :=
  ⟨rfl, rfl, by decide, rfl, by decide, rfl, by decide, by decide,
    generateSwappedPoster_text_reclassified reclassResp reclassCand _ [] []
      ⟨none, some "Requested entity was not found."⟩
      "Requested entity was not found." rfl rfl (by decide) rfl (by decide)
      rfl (by decide) (by decide)⟩

/-! ### Orchestration theorems -/

/-- C6: when the preconditions hold and the adapter rejects with
`KEY_NOT_FOUND`, `handleProcess` resets the `hasKey` flag, clears the
processing flag, and shows the invalid-key message; any other adapter
outcome leaves the `hasKey` flag of any state untouched. -/
theorem handleProcess_key_invalid (ui : UIState)
    (hk : ui.hasKey = true) (hp : ui.state.poster ≠ none)
    (hpe : ui.state.people.length ≠ 0) :
    ((handleProcess ui (Except.error "KEY_NOT_FOUND")).1.hasKey = false ∧
     (handleProcess ui (Except.error "KEY_NOT_FOUND")).1.state.isProcessing
       = false ∧
     (handleProcess ui (Except.error "KEY_NOT_FOUND")).1.state.error
       = some keyInvalidMsg) ∧
    (∀ (ui' : UIState) (msg : String), msg ≠ "KEY_NOT_FOUND" →
      (handleProcess ui' (Except.error msg)).1.hasKey = ui'.hasKey) ∧
    (∀ (ui' : UIState) (url : String),
      (handleProcess ui' (Except.ok url)).1.hasKey = ui'.hasKey) := by
  refine ⟨?_, ?_, ?_⟩
  · simp [handleProcess, hk, hp, hpe]
  · intro ui' msg hmsg
    unfold handleProcess
    split_ifs <;> simp [hmsg]
  · intro ui' url
    unfold handleProcess
    split_ifs <;> simp

/-- A blank session with a key, one poster and one person, used by the
orchestration witnesses. -/
def readyUI : UIState :=
  { state :=
      { poster := some ⟨"p1", "u", "b64", "image/png", "poster.png",
          some 1000, some 1500⟩
        people := [⟨"q1", "u2", "c64", "image/jpeg", "me.jpg",
          some 10, some 10⟩]
        isProcessing := false
        result := none
        error := none }
    hasKey := true }

/-- Witness for C6 on `readyUI`. -/
theorem handleProcess_key_invalid_witness :
    readyUI.hasKey = true ∧ readyUI.state.poster ≠ none ∧
    readyUI.state.people.length ≠ 0 ∧
    (((handleProcess readyUI (Except.error "KEY_NOT_FOUND")).1.hasKey = false ∧
      (handleProcess readyUI (Except.error "KEY_NOT_FOUND")).1.state.isProcessing
        = false ∧
      (handleProcess readyUI (Except.error "KEY_NOT_FOUND")).1.state.error
        = some keyInvalidMsg) ∧
     (∀ (ui' : UIState) (msg : String), msg ≠ "KEY_NOT_FOUND" →
       (handleProcess ui' (Except.error msg)).1.hasKey = ui'.hasKey) ∧
     (∀ (ui' : UIState) (url : String),
       (handleProcess ui' (Except.ok url)).1.hasKey = ui'.hasKey)) :=
  ⟨rfl, by decide, by decide,
    handleProcess_key_invalid readyUI rfl (by decide) (by decide)⟩

/-- C7: when a precondition fails (no key, no poster, or no person),
`handleProcess` issues no remote call, its outcome is independent of the
adapter result, the key flag is untouched, and the state changes only by
gaining the corresponding precondition error message. -/
theorem handleProcess_precondition (ui : UIState)
    (genResult : Except String String)
    (h : ui.hasKey = false ∨ ui.state.poster = none ∨
      ui.state.people.length = 0) :
    (handleProcess ui genResult).2 = false ∧
    (handleProcess ui genResult).1.hasKey = ui.hasKey ∧
    (∀ other : Except String String,
      handleProcess ui genResult = handleProcess ui other) ∧
    ∃ msg, msg ∈ [keyRequiredMsg, posterRequiredMsg, personRequiredMsg] ∧
      (handleProcess ui genResult).1.state =
        { ui.state with error := some msg } := by
  by_cases h1 : ui.hasKey = false
  · exact ⟨by simp [handleProcess, h1], by simp [handleProcess, h1],
      fun other => by simp [handleProcess, h1],
      keyRequiredMsg, by simp, by simp [handleProcess, h1]⟩
  · by_cases h2 : ui.state.poster = none
    · exact ⟨by simp [handleProcess, h1, h2], by simp [handleProcess, h1, h2],
        fun other => by simp [handleProcess, h1, h2],
        posterRequiredMsg, by simp, by simp [handleProcess, h1, h2]⟩
    · by_cases h3 : ui.state.people.length = 0
      · exact ⟨by simp [handleProcess, h1, h2, h3],
          by simp [handleProcess, h1, h2, h3],
          fun other => by simp [handleProcess, h1, h2, h3],
          personRequiredMsg, by simp, by simp [handleProcess, h1, h2, h3]⟩
      · rcases h with h | h | h
        · exact absurd h h1
        · exact absurd h h2
        · exact absurd h h3

/-- A session with a key and a person but no poster, used by the C7
witness (the spec's end-to-end scenario B). -/
def noPosterUI : UIState :=
  { state :=
      { poster := none
        people := [⟨"q1", "u2", "c64", "image/jpeg", "me.jpg",
          some 10, some 10⟩]
        isProcessing := false
        result := none
        error := none }
    hasKey := true }

/-- Witness for C7 on `noPosterUI` with a would-be successful adapter
result that must never be consulted. -/
theorem handleProcess_precondition_witness :
    (noPosterUI.hasKey = false ∨ noPosterUI.state.poster = none ∨
      noPosterUI.state.people.length = 0) ∧
    ((handleProcess noPosterUI (Except.ok "data:image/png;base64,XYZ")).2
        = false ∧
     (handleProcess noPosterUI (Except.ok "data:image/png;base64,XYZ")).1.hasKey
        = noPosterUI.hasKey ∧
     (∀ other : Except String String,
       handleProcess noPosterUI (Except.ok "data:image/png;base64,XYZ") =
         handleProcess noPosterUI other) ∧
     ∃ msg, msg ∈ [keyRequiredMsg, posterRequiredMsg, personRequiredMsg] ∧
       (handleProcess noPosterUI (Except.ok "data:image/png;base64,XYZ")).1.state
         = { noPosterUI.state with error := some msg }) :=
  ⟨Or.inr (Or.inl rfl),
    handleProcess_precondition noPosterUI (Except.ok "data:image/png;base64,XYZ")
      (Or.inr (Or.inl rfl))⟩

/-! ### Payload assembly theorem -/

/-- C8: the assembled payload has `people.length + 2` parts; part 0 is
the poster's inline data with its MIME type, part `i + 1` is person
`i`'s inline data with its MIME type in list order, and the final part
is the constant instruction text (`promptText`, a closed constant not
parameterized by the inputs). -/
theorem buildParts_layout (poster : UploadedImage)
    (people : List UploadedImage) :
    (buildParts poster people).length = people.length + 2 ∧
    (buildParts poster people).head? =
      some (ReqPart.inlineData poster.base64 poster.mimeType) ∧
    (∀ i (hi : i < people.length),
      (buildParts poster people)[i + 1]? =
        some (ReqPart.inlineData (people.get ⟨i, hi⟩).base64
          (people.get ⟨i, hi⟩).mimeType)) ∧
    (buildParts poster people).getLast? = some (ReqPart.text promptText) := by
  refine ⟨?_, ?_, ?_, ?_⟩
  · simp [buildParts]
  · simp [buildParts]
  · intro i hi
    have hmap : i < (people.map fun person =>
        ReqPart.inlineData person.base64 person.mimeType).length := by
      simpa using hi
    have hcons : i + 1 <
        (ReqPart.inlineData poster.base64 poster.mimeType ::
          people.map fun person =>
            ReqPart.inlineData person.base64 person.mimeType).length := by
      simpa using Nat.succ_lt_succ hmap
    rw [buildParts, List.getElem?_append, if_pos hcons,
      List.getElem?_cons_succ, List.getElem?_map]
    rw [List.getElem?_eq_getElem hi]
    simp
  · rw [buildParts, List.getLast?_concat]

/-- Witness for C8: a poster and two people. -/
theorem buildParts_layout_witness :
    (buildParts ⟨"p1", "u", "b64", "image/png", "poster.png",
        some 1000, some 1500⟩
      [⟨"q1", "u2", "c64", "image/jpeg", "a.jpg", none, none⟩,
       ⟨"q2", "u3", "d64", "image/webp", "b.webp", none, none⟩]).length
        = 2 + 2 ∧
    (buildParts ⟨"p1", "u", "b64", "image/png", "poster.png",
        some 1000, some 1500⟩
      [⟨"q1", "u2", "c64", "image/jpeg", "a.jpg", none, none⟩,
       ⟨"q2", "u3", "d64", "image/webp", "b.webp", none, none⟩]).head?
        = some (ReqPart.inlineData "b64" "image/png") ∧
    (∀ i (hi : i < ([⟨"q1", "u2", "c64", "image/jpeg", "a.jpg", none, none⟩,
        ⟨"q2", "u3", "d64", "image/webp", "b.webp", none, none⟩] :
          List UploadedImage).length),
      (buildParts ⟨"p1", "u", "b64", "image/png", "poster.png",
          some 1000, some 1500⟩
        [⟨"q1", "u2", "c64", "image/jpeg", "a.jpg", none, none⟩,
         ⟨"q2", "u3", "d64", "image/webp", "b.webp", none, none⟩])[i + 1]? =
        some (ReqPart.inlineData
          (([⟨"q1", "u2", "c64", "image/jpeg", "a.jpg", none, none⟩,
             ⟨"q2", "u3", "d64", "image/webp", "b.webp", none, none⟩] :
               List UploadedImage).get ⟨i, hi⟩).base64
          (([⟨"q1", "u2", "c64", "image/jpeg", "a.jpg", none, none⟩,
             ⟨"q2", "u3", "d64", "image/webp", "b.webp", none, none⟩] :
               List UploadedImage).get ⟨i, hi⟩).mimeType)) ∧
    (buildParts ⟨"p1", "u", "b64", "image/png", "poster.png",
        some 1000, some 1500⟩
      [⟨"q1", "u2", "c64", "image/jpeg", "a.jpg", none, none⟩,
       ⟨"q2", "u3", "d64", "image/webp", "b.webp", none, none⟩]).getLast?
        = some (ReqPart.text promptText) :=
  buildParts_layout
    ⟨"p1", "u", "b64", "image/png", "poster.png", some 1000, some 1500⟩
    [⟨"q1", "u2", "c64", "image/jpeg", "a.jpg", none, none⟩,
     ⟨"q2", "u3", "d64", "image/webp", "b.webp", none, none⟩]

end CineSwap
